import Mathlib

/-!
# CineShard: the search / pagination / filter coordinator of `src/App.jsx`

A shallow embedding of the `App` component: its `useState` cells become the
fields of `State`, the asynchronous functions `fetchMovies` and `fetchGenres`
become pure functions of the state and of what the awaited calls deliver, and
the event handlers become state transformers.

Modelling conventions.
* JavaScript strings are Lean strings (sequences of Unicode scalar values), so
  a lone surrogate, on which `encodeURIComponent` throws, is not an input.
* The numbers of the component (`page`, `totalPages`, `total_pages`) are
  integers; `String(n)` is the decimal numeral, which is what JavaScript prints
  for every integer of magnitude below `10^21`.
* A field that may be absent from a JSON body is an `Option`; `none` is the
  JavaScript `undefined`.
-/

namespace CineShard

/-! ## Data model -/

/-- Movie record of the catalog; passed through, never inspected. -/
structure Movie where
  id : Int
  title : String
  poster_path : String
deriving DecidableEq, Repr

/-- Genre entry of the catalog; `id` is what the `option` element carries as its value. -/
structure Genre where
  id : String
  name : String
deriving DecidableEq, Repr

/-- Body of a discovery response, `{results, total_pages}`, either field possibly absent. -/
structure CatalogBody where
  results : Option (List Movie)
  total_pages : Option Int
deriving DecidableEq, Repr

/-- Body of a genre-list response, `{genres}`, the field possibly absent. -/
structure GenreBody where
  genres : Option (List Genre)
deriving DecidableEq, Repr

/-- What `await fetch(...)` followed by `await response.json()` delivers:
the fetch rejects, or a response arrives with its `ok` flag and a body that
parses as JSON (`some`) or does not (`none`, `json()` rejects). -/
inductive Fetched (β : Type) where
  | networkError : Fetched β
  | response (ok : Bool) (json : Option β) : Fetched β
deriving DecidableEq, Repr

/-- How an awaited promise settles. -/
inductive Settled where
  | resolved : Settled
  | rejected : Settled
deriving DecidableEq, Repr

/-- The exceptions that can reach the `catch` of `fetchMovies`. -/
inductive Thrown where
  | network : Thrown
  | failedToFetch : Thrown
  | badJson : Thrown
  | typeError : Thrown
  | recordRejected : Thrown
deriving DecidableEq, Repr

/-- The `useState` cells of `App` (lines 22-32). `genres` holds whatever
`setGenres` was given, `none` being `undefined`. -/
structure State where
  searchTerm : String
  errorMessage : String
  movieList : List Movie
  isLoading : Bool
  debouncedSearchTerm : String
  trendingMovies : List Movie
  page : Int
  totalPages : Int
  genres : Option (List Genre)
  selectedGenre : String
deriving DecidableEq, Repr

/-- Initial values of the `useState` cells. -/
def initialState : State :=
  { searchTerm := "", errorMessage := "", movieList := [], isLoading := false,
    debouncedSearchTerm := "", trendingMovies := [], page := 1, totalPages := 1,
    genres := some [], selectedGenre := "" }

/-! ## Query builder -/

/-- Constant `API_BASE_URL` (line 10). -/
def API_BASE_URL : String := "https://api.themoviedb.org/3"

/-- Upper-case hexadecimal digit of a nibble. -/
def hexDigit (n : Nat) : Char :=
  if n < 10 then Char.ofNat (48 + n) else Char.ofNat (55 + n)

/-- One byte as `%XX`. -/
def percentByte (b : Nat) : List Char :=
  ['%', hexDigit (b / 16), hexDigit (b % 16)]

/-- UTF-8 encoding of a Unicode scalar value. -/
def utf8Bytes (c : Char) : List Nat :=
  let n := c.toNat
  if n < 128 then [n]
  else if n < 2048 then [192 + n / 64, 128 + n % 64]
  else if n < 65536 then [224 + n / 4096, 128 + (n / 64) % 64, 128 + n % 64]
  else [240 + n / 262144, 128 + (n / 4096) % 64, 128 + (n / 64) % 64, 128 + n % 64]

/-- The characters `encodeURIComponent` leaves alone: ASCII letters and
digits and the marks `- _ . ! ~ * ' ( )`. -/
def isUnreserved (c : Char) : Bool :=
  c.isAlphanum || ['-', '_', '.', '!', '~', '*', Char.ofNat 39, '(', ')'].contains c

/-- Encoding of one character by `encodeURIComponent`. -/
def encodeChar (c : Char) : List Char :=
  if isUnreserved c then [c] else (utf8Bytes c).flatMap percentByte

/-- The built-in `encodeURIComponent` on well-formed strings. -/
def encodeURIComponent (s : String) : String :=
  String.mk (s.data.flatMap encodeChar)

/-- Rendering `String(n)` of an integer `n` inside a template literal. -/
def numberToString (n : Int) : String := toString n

/-- Constant `genreParam` (line 40): the template is used when `selectedGenre` is truthy. -/
def genreParam (selectedGenre : String) : String :=
  if selectedGenre ≠ "" then "&with_genres=" ++ selectedGenre else ""

/-- Constant `endpoint` (lines 41-45): the keyword template when `query` is truthy,
the plain discovery template otherwise. -/
def endpoint (selectedGenre query : String) (pageNum : Int) : String :=
  if query ≠ "" then
    API_BASE_URL ++ "/discover/movie?sort_by=popularity.desc&with_keywords="
      ++ encodeURIComponent query ++ "&page=" ++ numberToString pageNum
      ++ genreParam selectedGenre
  else
    API_BASE_URL ++ "/discover/movie?sort_by=popularity.desc&page="
      ++ numberToString pageNum ++ genreParam selectedGenre

/-- The name of the genre filter parameter, with its `=`. -/
def GENRE_FILTER : String := "with_genres="

/-- Whether a URL contains the genre filter parameter. -/
def hasGenreFilter (url : String) : Prop := GENRE_FILTER.data <:+: url.data

instance (url : String) : Decidable (hasGenreFilter url) := by
  unfold hasGenreFilter; infer_instance

/-! ## fetchMovies -/

/-- The message of line 59. -/
def FETCH_ERROR_MESSAGE : String := "Error fetching movies. Please try again later."

/-- Expression `data.total_pages || 1`: an absent field and `0` are falsy. -/
def totalPagesOr1 : Option Int → Int
  | none => 1
  | some 0 => 1
  | some n => n

/-- Expression `data.results || []`: an absent field is falsy, every array is truthy. -/
def resultsOrEmpty : Option (List Movie) → List Movie
  | none => []
  | some rs => rs

/-- Outcome of the `try` block: the state reached, the calls made to
`updateSearchCount`, and the exception that left the block, if any. -/
structure TryResult where
  state : State
  recorded : List (String × Movie)
  thrown : Option Thrown
deriving DecidableEq, Repr

/-- Lines 47-56, the part of the `try` block after the endpoint is built.
`record` stands for the imported `updateSearchCount`: how its promise settles
for given arguments. -/
def fetchMoviesTry (s : State) (query : String) (out : Fetched CatalogBody)
    (record : String → Movie → Settled) : TryResult :=
  match out with
  | .networkError => ⟨s, [], some .network⟩
  | .response ok json =>
    if !ok then ⟨s, [], some .failedToFetch⟩
    else
      match json with
      | none => ⟨s, [], some .badJson⟩
      | some data =>
        let s1 := { s with movieList := resultsOrEmpty data.results }
        let s2 := { s1 with totalPages := totalPagesOr1 data.total_pages }
        if query ≠ "" then
          -- `data.results.length` is evaluated only when `query` is truthy
          match data.results with
          | none => ⟨s2, [], some .typeError⟩
          | some [] => ⟨s2, [], none⟩
          | some (first :: _) =>
            match record query first with
            | .resolved => ⟨s2, [(query, first)], none⟩
            | .rejected => ⟨s2, [(query, first)], some .recordRejected⟩
        else ⟨s2, [], none⟩

/-- Lines 37-38: the synchronous prologue of `fetchMovies`. -/
def fetchMoviesBegin (s : State) : State :=
  let s0 := { s with isLoading := true }
  { s0 with errorMessage := "" }

/-- Everything a call of `fetchMovies` does. -/
structure FetchRun where
  state : State
  requests : List String
  recorded : List (String × Movie)
  caught : Option Thrown
deriving DecidableEq, Repr

/-- Lines 47-62 on the state `s` in which the response arrives: the `try`
block, the `catch` that sets the message, the `finally` that clears the flag. -/
def fetchMoviesSettle (s : State) (query : String) (out : Fetched CatalogBody)
    (record : String → Movie → Settled) : TryResult :=
  let r := fetchMoviesTry s query out record
  let s3 :=
    match r.thrown with
    | some _ => { r.state with errorMessage := FETCH_ERROR_MESSAGE }
    | none => r.state
  ⟨{ s3 with isLoading := false }, r.recorded, r.thrown⟩

/-- The function `fetchMovies` (lines 36-63), run to completion: `out` is what
the catalog delivers for the request. -/
def fetchMovies (s : State) (query : String) (pageNum : Int)
    (out : Fetched CatalogBody) (record : String → Movie → Settled) : FetchRun :=
  let r := fetchMoviesSettle (fetchMoviesBegin s) query out record
  ⟨r.state, [endpoint s.selectedGenre query pageNum], r.recorded, r.thrown⟩

/-! ## Handlers, effects and rendering -/

/-- The `onChange` of the search box: the `Search` component hands the typed
text to `setSearchTerm`. -/
def onSearchInput (s : State) (text : String) : State :=
  { s with searchTerm := text }

/-- The callback of `useDebounce` (line 34), run when the input has settled. -/
def onDebounce (s : State) : State :=
  { s with debouncedSearchTerm := s.searchTerm }

/-- The `onChange` of the genre select (lines 135-138). -/
def onGenreChange (s : State) (value : String) : State :=
  let s1 := { s with selectedGenre := value }
  { s1 with page := 1 }

/-- The `onClick` of the Prev button (line 172). -/
def onPrevClick (s : State) : State :=
  { s with page := max (s.page - 1) 1 }

/-- The `onClick` of the Next button (lines 182-184). -/
def onNextClick (s : State) : State :=
  { s with page := min (s.page + 1) s.totalPages }

/-- The `disabled` attribute of Prev (line 173). -/
def prevDisabled (s : State) : Bool := decide (s.page = 1)

/-- The `disabled` attribute of Next (line 185). -/
def nextDisabled (s : State) : Bool := decide (s.page = s.totalPages)

/-- Whether the pagination bar is rendered (lines 154-168): not loading, no
error, not the "No search results found" branch, and `totalPages > 1`. -/
def paginationShown (s : State) : Bool :=
  !s.isLoading && decide (s.errorMessage = "")
    && !(decide (s.movieList.length = 0) && decide (s.debouncedSearchTerm ≠ ""))
    && decide (s.totalPages > 1)

/-- Whether one of the dependencies of the effect of lines 85-87 differs
between two renders. -/
def depsChanged (before after : State) : Bool :=
  decide (before.debouncedSearchTerm ≠ after.debouncedSearchTerm)
    || decide (before.page ≠ after.page)
    || decide (before.selectedGenre ≠ after.selectedGenre)

/-- The effect of lines 85-87 run to completion: `fetchMovies(debouncedSearchTerm, page)`. -/
def refetch (s : State) (out : Fetched CatalogBody)
    (record : String → Movie → Settled) : FetchRun :=
  fetchMovies s s.debouncedSearchTerm s.page out record

/-- A re-render after a handler: when a dependency changed the effect starts a
fetch cycle, whose synchronous prologue runs at once. -/
def rerender (before after : State) : State :=
  if depsChanged before after then fetchMoviesBegin after else after

/-- The function `fetchGenres` (lines 74-83): no status check; a rejected
`fetch` or `json()` is caught and logged, otherwise `setGenres(data.genres)`. -/
def fetchGenres (s : State) (out : Fetched GenreBody) : State :=
  match out with
  | .networkError => s
  | .response _ none => s
  | .response _ (some data) => { s with genres := data.genres }

/-- What the filter area shows. -/
inductive FilterView where
  | select (value : String) (options : List Genre) : FilterView
  | fallback : FilterView
deriving DecidableEq, Repr

/-- The filter area (lines 131-151): `genres.length > 0 ? select : fallback`;
reading `length` of `undefined` throws. -/
def renderFilters (s : State) : Except Thrown FilterView :=
  match s.genres with
  | none => .error .typeError
  | some [] => .ok .fallback
  | some (g :: gs) => .ok (.select s.selectedGenre (g :: gs))

/-! ## The coordinator as a transition system -/

/-- What can happen to the mounted component. -/
inductive Event where
  | mount : Event
  | input (text : String) : Event
  | debounce : Event
  | selectGenre (value : String) : Event
  | prev : Event
  | next : Event
  | settle (query : String) (out : Fetched CatalogBody) (rec : Settled) : Event
  | genresLoaded (out : Fetched GenreBody) : Event
deriving DecidableEq, Repr

/-- One transition. A control that is not rendered, or is disabled, cannot be
operated: the event leaves the state alone. `settle` is the completion of an
outstanding `fetchMovies` call issued for `query`. -/
def step (s : State) : Event → State
  | .mount => fetchMoviesBegin s
  | .input text => onSearchInput s text
  | .debounce => rerender s (onDebounce s)
  | .selectGenre value =>
    match s.genres with
    | some (_ :: _) => rerender s (onGenreChange s value)
    | _ => s
  | .prev =>
    if paginationShown s && !prevDisabled s then rerender s (onPrevClick s) else s
  | .next =>
    if paginationShown s && !nextDisabled s then rerender s (onNextClick s) else s
  | .settle query out rec => (fetchMoviesSettle s query out (fun _ _ => rec)).state
  | .genresLoaded out => fetchGenres s out

/-- The state after a sequence of events. -/
def run (s : State) (evs : List Event) : State := evs.foldl step s

/-- Every successful response of the sequence reports at least as many pages
as the page shown when it is applied. -/
def pagesCovered (s : State) : List Event → Bool
  | [] => true
  | e :: es =>
    (match e with
      | .settle _ (.response true (some data)) _ =>
        decide (s.page ≤ totalPagesOr1 data.total_pages)
      | _ => true)
    && pagesCovered (step s e) es

/-! ## Trend recorder -/

/-- Entry of the trend collection. -/
structure TrendingEntry where
  term : String
  count : Nat
  movie : Movie
deriving DecidableEq, Repr

/-- Which operation of the document store errors during a call, if any. -/
inductive StoreFault where
  | healthy : StoreFault
  | lookupFails : StoreFault
  | writeFails : StoreFault
deriving DecidableEq, Repr

/-- What a call of the trend recorder leaves behind. -/
structure RecordRun where
  store : List TrendingEntry
  logged : Bool
  settled : Settled
deriving DecidableEq, Repr

/-- Increment the count of the first entry whose term matches exactly. -/
def bumpCount (term : String) : List TrendingEntry → List TrendingEntry
  | [] => []
  | e :: es =>
    if e.term = term then { e with count := e.count + 1 } :: es
    else e :: bumpCount term es

/-- Modelled from the spec: `updateSearchCount` of `src/appwrite.js`, which is
not among the sources. It looks the term up by exact match; a found entry has
its count incremented, otherwise an entry with count 1 and a snapshot of the
movie is created; an error of the store is logged and is non-fatal to the
caller, so the promise resolves either way. -/
def updateSearchCount (store : List TrendingEntry) (fault : StoreFault)
    (term : String) (movie : Movie) : RecordRun :=
  match fault with
  | .lookupFails => ⟨store, true, .resolved⟩
  | .writeFails => ⟨store, true, .resolved⟩
  | .healthy =>
    if store.any (fun e => decide (e.term = term)) then
      ⟨bumpCount term store, false, .resolved⟩
    else ⟨store ++ [⟨term, 1, movie⟩], false, .resolved⟩

/-! ## Sample data -/

/-- Sample movie. -/
def movieA : Movie := ⟨27205, "Inception", "/a.jpg"⟩

/-- Second sample movie. -/
def movieB : Movie := ⟨155, "The Dark Knight", "/b.jpg"⟩

/-- Successful response carrying `movieA` and `movieB` and a page count. -/
def okPages (n : Int) : Fetched CatalogBody :=
  .response true (some ⟨some [movieA, movieB], some n⟩)

/-- Successful response whose body is `{}`: no `results`, no `total_pages`. -/
def emptyBody : Fetched CatalogBody := .response true (some ⟨none, none⟩)

/-- A recorder whose promise always resolves. -/
def alwaysResolves : String → Movie → Settled := fun _ _ => .resolved

/-- The state with its page replaced. -/
def withPage (s : State) (p : Int) : State := { s with page := p }

/-- The error body the catalog sends with status 401: JSON, without a `genres` field. -/
def unauthorizedGenres : Fetched GenreBody := .response false (some ⟨none⟩)

/-- Browsing to page 3 of 5 and then typing a new term, up to the moment the
debounce timer fires. -/
def browseThenType : List Event :=
  [.mount, .settle "" (okPages 5) .resolved, .next, .settle "" (okPages 5) .resolved,
   .next, .settle "" (okPages 5) .resolved, .input "batman"]

/-- The catalog reports two pages, the user moves to page 2, and the response
for page 2 reports a single page. -/
def shrinkingCatalog : List Event :=
  [.mount, .settle "" (okPages 2) .resolved, .next, .settle "" (okPages 1) .resolved]

/-- Page 2 of 3, idle, with results on screen. -/
def page2of3 : State :=
  { initialState with movieList := [movieA, movieB], page := 2, totalPages := 3 }

/-- Browsing forward, typing "batman", and receiving four pages for it. -/
def browseAndSearch : List Event :=
  [.mount, .settle "" (okPages 5) .resolved, .next, .settle "" (okPages 5) .resolved,
   .input "batman", .debounce, .settle "batman" (okPages 4) .resolved, .prev]

/-! ## Basic facts about a fetch cycle -/

theorem fetchMoviesTry_page (s : State) (query : String) (out : Fetched CatalogBody)
    (record : String → Movie → Settled) :
    (fetchMoviesTry s query out record).state.page = s.page := by
  unfold fetchMoviesTry
  repeat' split
  all_goals rfl

theorem fetchMoviesSettle_page (s : State) (query : String) (out : Fetched CatalogBody)
    (record : String → Movie → Settled) :
    (fetchMoviesSettle s query out record).state.page = s.page := by
  have h := fetchMoviesTry_page s query out record
  unfold fetchMoviesSettle
  dsimp only
  split <;> simpa using h

/-- A rejection of the awaited recorder call would reach the `catch` of
`fetchMovies`: the function itself does not guard the call. -/
theorem fetchMovies_record_rejected (s : State) (query : String) (pageNum : Int)
    (first : Movie) (rest : List Movie) (tp : Option Int) (hq : query ≠ "") :
    (fetchMovies s query pageNum (.response true (some ⟨some (first :: rest), tp⟩))
      (fun _ _ => .rejected)).state.errorMessage = FETCH_ERROR_MESSAGE := by
  simp [fetchMovies, fetchMoviesSettle, fetchMoviesTry, hq]

/-- With an empty term the missing `results` field is never dereferenced. -/
theorem fetchMovies_missing_results_empty_term (s : State) (pageNum : Int)
    (tp : Option Int) (record : String → Movie → Settled) :
    (fetchMovies s "" pageNum (.response true (some ⟨none, tp⟩)) record).state.movieList = []
      ∧ (fetchMovies s "" pageNum (.response true (some ⟨none, tp⟩)) record).state.errorMessage
          = ""
      ∧ (fetchMovies s "" pageNum (.response true (some ⟨none, tp⟩)) record).state.isLoading
          = false := by
  simp [fetchMovies, fetchMoviesSettle, fetchMoviesTry, fetchMoviesBegin, resultsOrEmpty]

/-! ## Characters of the request URL -/

theorem digitChar_ne_eq : ∀ k < 10, Nat.digitChar k ≠ '=' := by decide

theorem toDigitsCore_no_eq (fuel : Nat) : ∀ (n : Nat) (ds : List Char),
    (∀ c ∈ ds, c ≠ '=') → ∀ c ∈ Nat.toDigitsCore 10 fuel n ds, c ≠ '=' := by
  induction fuel with
  | zero => intro n ds h; simpa [Nat.toDigitsCore] using h
  | succ fuel ih =>
    intro n ds h
    have hd : ∀ c ∈ Nat.digitChar (n % 10) :: ds, c ≠ '=' := by
      intro c hc
      rcases List.mem_cons.1 hc with rfl | hc
      · exact digitChar_ne_eq _ (Nat.mod_lt _ (by decide))
      · exact h c hc
    simp only [Nat.toDigitsCore]
    split_ifs
    · exact hd
    · exact ih _ _ hd

theorem natRepr_no_eq (m : Nat) : ∀ c ∈ (Nat.repr m).data, c ≠ '=' := by
  show ∀ c ∈ Nat.toDigits 10 m, c ≠ '='
  exact toDigitsCore_no_eq _ _ _ (by simp)

theorem numberToString_no_eq (n : Int) : ∀ c ∈ (numberToString n).data, c ≠ '=' := by
  cases n with
  | ofNat m => exact natRepr_no_eq m
  | negSucc m =>
    show ∀ c ∈ ("-" ++ Nat.repr (m + 1)).data, c ≠ '='
    intro c hc
    rw [String.data_append] at hc
    rcases List.mem_append.1 hc with hc | hc
    · have : c = '-' := by simpa using hc
      subst this; decide
    · exact natRepr_no_eq _ c hc

theorem utf8Bytes_lt (c : Char) : ∀ b ∈ utf8Bytes c, b < 256 := by
  have hv : c.toNat < 1114112 := by
    have := c.valid
    simp only [UInt32.isValidChar, Nat.isValidChar] at this
    show c.val.toNat < 1114112
    omega
  intro b hb
  unfold utf8Bytes at hb
  dsimp only at hb
  split_ifs at hb <;> simp at hb <;> omega

theorem hexDigit_ne_eq : ∀ k < 16, hexDigit k ≠ '=' := by decide

theorem percentByte_no_eq (b : Nat) (hb : b < 256) : ∀ c ∈ percentByte b, c ≠ '=' := by
  intro c hc
  simp only [percentByte, List.mem_cons, List.mem_singleton, List.not_mem_nil, or_false] at hc
  rcases hc with rfl | rfl | rfl
  · decide
  · exact hexDigit_ne_eq _ (by omega)
  · exact hexDigit_ne_eq _ (by omega)

theorem encodeChar_no_eq (a : Char) : ∀ c ∈ encodeChar a, c ≠ '=' := by
  intro c hc
  unfold encodeChar at hc
  split_ifs at hc with hu
  · have : c = a := by simpa using hc
    subst this
    intro h
    subst h
    exact absurd hu (by decide)
  · rcases List.mem_flatMap.1 hc with ⟨b, hb, hcb⟩
    exact percentByte_no_eq b (utf8Bytes_lt a b hb) c hcb

theorem encodeURIComponent_no_eq (s : String) : ∀ c ∈ (encodeURIComponent s).data, c ≠ '=' := by
  intro c hc
  rcases List.mem_flatMap.1 hc with ⟨a, _, hca⟩
  exact encodeChar_no_eq a c hca


theorem infix_append_split {α : Type} {P X Y : List α} (h : P <:+: X ++ Y) :
    P <:+: X ∨ P <:+: Y ∨
      ∃ p q, p ≠ [] ∧ q ≠ [] ∧ P = p ++ q ∧ p <:+ X ∧ q <+: Y := by
  induction X with
  | nil => right; left; simpa using h
  | cons x X ih =>
    rw [List.cons_append, List.infix_cons_iff] at h
    rcases h with h | h
    · have hZ : (x :: X) <+: x :: (X ++ Y) := by
        rw [← List.cons_append]; exact List.prefix_append _ _
      rcases List.prefix_or_prefix_of_prefix h hZ with hp | hp
      · left; exact hp.isInfix
      · obtain ⟨r, hr⟩ := hp
        subst hr
        have hrY : r <+: Y := by
          rw [← List.cons_append] at h
          exact (List.prefix_append_right_inj _).1 h
        by_cases hr0 : r = []
        · left; subst hr0; simp
        · right; right
          exact ⟨x :: X, r, by simp, hr0, rfl, List.suffix_refl _, hrY⟩
    · rcases ih h with h1 | h1 | ⟨p, q, hp, hq, hP, hpX, hqY⟩
      · left; exact h1.trans (List.suffix_cons x X).isInfix
      · right; left; exact h1
      · right; right
        exact ⟨p, q, hp, hq, hP, hpX.trans (List.suffix_cons x X), hqY⟩

theorem filter_mem_eq : '=' ∈ GENRE_FILTER.data := by decide

theorem filter_not_mem_amp : '&' ∉ GENRE_FILTER.data := by decide

theorem filter_take_no_eq : ∀ k < 12, '=' ∉ GENRE_FILTER.data.take k := by decide

theorem filter_proper_prefix_no_eq {p q : List Char} (h : GENRE_FILTER.data = p ++ q)
    (hq : q ≠ []) : '=' ∉ p := by
  have hlen : p.length + q.length = 12 := by
    have := congrArg List.length h
    rw [List.length_append] at this
    exact this.symm
  have hq' : 0 < q.length := List.length_pos.2 hq
  have hp : p = GENRE_FILTER.data.take p.length := by
    rw [h, List.take_left']
    rfl
  rw [hp]
  exact filter_take_no_eq _ (by omega)

theorem no_filter_of_no_eq {L : List Char} (h : ∀ c ∈ L, c ≠ '=') :
    ¬ GENRE_FILTER.data <:+: L :=
  fun hin => h '=' (hin.subset filter_mem_eq) rfl

theorem suffix_of_eq_ended {p X : List Char} (hp : p ≠ []) (h : p <:+ X ++ ['=']) :
    '=' ∈ p := by
  have h' : p.reverse <+: '=' :: X.reverse := by
    have := List.reverse_prefix.2 h
    simpa using this
  cases hr : p.reverse with
  | nil => exact absurd (List.reverse_eq_nil_iff.1 hr) hp
  | cons a r =>
    rw [hr] at h'
    have ha : a = '=' := (List.cons_prefix_cons.1 h').1
    have : '=' ∈ p.reverse := by rw [hr, ha]; exact List.mem_cons_self _ _
    exact List.mem_reverse.1 this

theorem no_filter_after_eq {X R : List Char} (hX : ¬ GENRE_FILTER.data <:+: X ++ ['='])
    (hR : ¬ GENRE_FILTER.data <:+: R) : ¬ GENRE_FILTER.data <:+: (X ++ ['=']) ++ R := by
  intro h
  rcases infix_append_split h with h1 | h1 | ⟨p, q, hp, hq, hP, hpX, _⟩
  · exact hX h1
  · exact hR h1
  · exact filter_proper_prefix_no_eq hP hq (suffix_of_eq_ended hp hpX)

theorem no_filter_before_amp {E R : List Char} (hE : ∀ c ∈ E, c ≠ '=')
    (hR : ¬ GENRE_FILTER.data <:+: '&' :: R) : ¬ GENRE_FILTER.data <:+: E ++ '&' :: R := by
  intro h
  rcases infix_append_split h with h1 | h1 | ⟨p, q, _, hq, hP, _, hqR⟩
  · exact no_filter_of_no_eq hE h1
  · exact hR h1
  · cases q with
    | nil => exact hq rfl
    | cons a q =>
      have ha : a = '&' := (List.cons_prefix_cons.1 hqR).1
      apply filter_not_mem_amp
      rw [hP, ha]
      simp

set_option maxRecDepth 100000 in
theorem no_filter_in_plain_head : ¬ GENRE_FILTER.data <:+:
    "https://api.themoviedb.org/3/discover/movie?sort_by=popularity.desc&page".data
      ++ ['='] := by decide

set_option maxRecDepth 100000 in
theorem no_filter_in_keyword_head : ¬ GENRE_FILTER.data <:+:
    "https://api.themoviedb.org/3/discover/movie?sort_by=popularity.desc&with_keywords".data
      ++ ['='] := by decide

theorem no_filter_in_page_key : ¬ GENRE_FILTER.data <:+: "&page".data ++ ['='] := by decide

/-- Claim C7: the request URL contains `with_genres=` exactly when the
selected genre id is non-empty, whatever the term and the page; the encoded
term alone never contains it. -/
theorem endpoint_genre_filter (selectedGenre query : String) (pageNum : Int) :
    (hasGenreFilter (endpoint selectedGenre query pageNum) ↔ selectedGenre ≠ "")
      ∧ ¬ hasGenreFilter (encodeURIComponent query) := by
  have hD : ¬ GENRE_FILTER.data <:+: (numberToString pageNum).data :=
    no_filter_of_no_eq (numberToString_no_eq pageNum)
  have hE := encodeURIComponent_no_eq query
  refine ⟨⟨?_, ?_⟩, no_filter_of_no_eq hE⟩
  · intro h hg
    subst hg
    unfold hasGenreFilter endpoint genreParam at h
    by_cases hq : query = ""
    · simp only [hq, ne_eq, not_true_eq_false, if_false, String.data_append] at h
      have := no_filter_after_eq no_filter_in_plain_head hD
      apply this
      simpa [API_BASE_URL] using h
    · simp only [hq, ne_eq, not_false_eq_true, if_true, not_true_eq_false, if_false,
        String.data_append] at h
      have h1 := no_filter_after_eq no_filter_in_page_key hD
      have h2 : ¬ GENRE_FILTER.data <:+: (encodeURIComponent query).data
          ++ '&' :: ("page=".data ++ (numberToString pageNum).data) :=
        no_filter_before_amp hE (by simpa using h1)
      have h3 := no_filter_after_eq no_filter_in_keyword_head h2
      apply h3
      simpa [API_BASE_URL] using h
  · intro hg
    have hgp : (genreParam selectedGenre).data = "&with_genres=".data ++ selectedGenre.data := by
      simp [genreParam, hg]
    have h1 : GENRE_FILTER.data <:+: (genreParam selectedGenre).data := by
      rw [hgp]
      exact ⟨['&'], selectedGenre.data, rfl⟩
    unfold hasGenreFilter endpoint
    split_ifs <;>
      (rw [String.data_append]; exact h1.trans (List.suffix_append _ _).isInfix)

/-! ## Claims -/

/-- Claim C1, evaluated on the code: for the term "batman" and a successful
response whose body has no `results` field, `fetchMovies` stores the empty list
and then reads `data.results.length`; the `TypeError` reaches the `catch`, and
the cycle ends with the generic error message instead of an empty one. -/
theorem fetchMovies_missing_results_nonempty_term :
    (fetchMovies initialState "batman" 1 emptyBody alwaysResolves).state.movieList = []
      ∧ (fetchMovies initialState "batman" 1 emptyBody alwaysResolves).state.isLoading = false
      ∧ (fetchMovies initialState "batman" 1 emptyBody alwaysResolves).caught
          = some .typeError
      ∧ (fetchMovies initialState "batman" 1 emptyBody alwaysResolves).state.errorMessage
          = "Error fetching movies. Please try again later."
      ∧ (fetchMovies initialState "batman" 1 emptyBody alwaysResolves).state.errorMessage
          ≠ "" := by
  decide

/-- Claim C2: for a non-empty term and a successful response with a non-empty
results list, a failure of the trend store during `updateSearchCount` is
swallowed: the cycle ends with an empty error message, the response's list as
results and `isLoading` false. -/
theorem fetchMovies_record_failure_swallowed (s : State) (term : String) (pageNum : Int)
    (first : Movie) (rest : List Movie) (tp : Option Int)
    (store : List TrendingEntry) (fault : StoreFault)
    (hterm : term ≠ "") (hfail : fault ≠ .healthy) :
    (updateSearchCount store fault term first).logged = true
      ∧ (fetchMovies s term pageNum (.response true (some ⟨some (first :: rest), tp⟩))
          (fun q m => (updateSearchCount store fault q m).settled)).state.errorMessage = ""
      ∧ (fetchMovies s term pageNum (.response true (some ⟨some (first :: rest), tp⟩))
          (fun q m => (updateSearchCount store fault q m).settled)).state.movieList
          = first :: rest
      ∧ (fetchMovies s term pageNum (.response true (some ⟨some (first :: rest), tp⟩))
          (fun q m => (updateSearchCount store fault q m).settled)).state.isLoading = false
      ∧ (fetchMovies s term pageNum (.response true (some ⟨some (first :: rest), tp⟩))
          (fun q m => (updateSearchCount store fault q m).settled)).caught = none := by
  cases fault with
  | healthy => exact absurd rfl hfail
  | lookupFails =>
    simp [fetchMovies, fetchMoviesSettle, fetchMoviesTry, fetchMoviesBegin, resultsOrEmpty,
      updateSearchCount, hterm]
  | writeFails =>
    simp [fetchMovies, fetchMoviesSettle, fetchMoviesTry, fetchMoviesBegin, resultsOrEmpty,
      updateSearchCount, hterm]

theorem fetchMovies_record_failure_swallowed_witness :
    (updateSearchCount [] .writeFails "batman" movieA).logged = true
      ∧ (fetchMovies initialState "batman" 1
          (.response true (some ⟨some (movieA :: [movieB]), some 5⟩))
          (fun q m => (updateSearchCount [] .writeFails q m).settled)).state.errorMessage = ""
      ∧ (fetchMovies initialState "batman" 1
          (.response true (some ⟨some (movieA :: [movieB]), some 5⟩))
          (fun q m => (updateSearchCount [] .writeFails q m).settled)).state.movieList
          = movieA :: [movieB]
      ∧ (fetchMovies initialState "batman" 1
          (.response true (some ⟨some (movieA :: [movieB]), some 5⟩))
          (fun q m => (updateSearchCount [] .writeFails q m).settled)).state.isLoading = false
      ∧ (fetchMovies initialState "batman" 1
          (.response true (some ⟨some (movieA :: [movieB]), some 5⟩))
          (fun q m => (updateSearchCount [] .writeFails q m).settled)).caught = none :=
  fetchMovies_record_failure_swallowed initialState "batman" 1 movieA [movieB] (some 5)
    [] .writeFails (by decide) (by decide)

/-- Claim C3: whatever the prior state, a response with a non-success status
ends the cycle with the generic message, `isLoading` false, and the results and
`totalPages` of before the cycle. -/
theorem fetchMovies_non_success (s : State) (query : String) (pageNum : Int)
    (json : Option CatalogBody) (record : String → Movie → Settled) :
    (fetchMovies s query pageNum (.response false json) record).state.errorMessage
        = "Error fetching movies. Please try again later."
      ∧ (fetchMovies s query pageNum (.response false json) record).state.isLoading = false
      ∧ (fetchMovies s query pageNum (.response false json) record).state.movieList
          = s.movieList
      ∧ (fetchMovies s query pageNum (.response false json) record).state.totalPages
          = s.totalPages
      ∧ (fetchMovies s query pageNum (.response false json) record).recorded = [] := by
  simp [fetchMovies, fetchMoviesSettle, fetchMoviesTry, fetchMoviesBegin, FETCH_ERROR_MESSAGE]

/-- Claim C4, evaluated on the code: after browsing to page 3 of 5 the user
types "batman"; when the debounce fires, `page` is still 3 and the request
issued for the new term carries `page=3`. -/
theorem term_change_keeps_page :
    (run initialState browseThenType).page = 3
      ∧ (run initialState browseThenType).debouncedSearchTerm = ""
      ∧ (run initialState (browseThenType ++ [.debounce])).debouncedSearchTerm = "batman"
      ∧ (run initialState (browseThenType ++ [.debounce])).isLoading = true
      ∧ (run initialState (browseThenType ++ [.debounce])).page = 3
      ∧ (run initialState (browseThenType ++ [.debounce])).page ≠ 1
      ∧ (refetch (onDebounce (run initialState browseThenType)) (okPages 1)
          alwaysResolves).requests
          = ["https://api.themoviedb.org/3/discover/movie?sort_by=popularity.desc&with_keywords=batman&page=3"] := by
  decide

/-- Claim C9: on a successful response `updateSearchCount` is called exactly
once, with the term and the first result, when the term is non-empty and the
results list is non-empty, and is not called otherwise; for the response
`{results: [m], total_pages: 5}` to a non-empty term the single call is
`(term, m)` and `totalPages` ends at 5. -/
theorem fetchMovies_recorded (s : State) (query : String) (pageNum : Int)
    (data : CatalogBody) (record : String → Movie → Settled) (m : Movie) :
    (fetchMovies s query pageNum (.response true (some data)) record).recorded
        = (if query ≠ "" then
            match data.results with
            | some (first :: _) => [(query, first)]
            | _ => []
           else [])
      ∧ ((fetchMovies s query pageNum (.response true (some ⟨some [m], some 5⟩))
            record).recorded = (if query ≠ "" then [(query, m)] else [])
          ∧ (fetchMovies s query pageNum (.response true (some ⟨some [m], some 5⟩))
            record).state.totalPages = 5)
      ∧ (fetchMovies s query pageNum (.response true none) record).recorded = [] := by
  refine ⟨?_, ?_, rfl⟩
  · by_cases hq : query = ""
    · simp [fetchMovies, fetchMoviesSettle, fetchMoviesTry, hq]
    · rcases data with ⟨results, tp⟩
      rcases results with _ | (_ | ⟨first, rest⟩)
      · simp [fetchMovies, fetchMoviesSettle, fetchMoviesTry, hq]
      · simp [fetchMovies, fetchMoviesSettle, fetchMoviesTry, hq]
      · cases hr : record query first <;>
          simp [fetchMovies, fetchMoviesSettle, fetchMoviesTry, hq, hr]
  · by_cases hq : query = ""
    · simp [fetchMovies, fetchMoviesSettle, fetchMoviesTry, hq, totalPagesOr1]
    · cases hr : record query m <;>
        simp [fetchMovies, fetchMoviesSettle, fetchMoviesTry, hq, hr, totalPagesOr1]

/-- Claim C10, evaluated on the code: a 401 response to the genre request has
a JSON body without a `genres` field; `fetchGenres` does not look at the status
and stores `undefined`, and rendering the filter area then reads the length of
`undefined` instead of showing the fallback. A network error leaves the list
empty and the fallback is shown. -/
theorem fetchGenres_non_success_body :
    (fetchGenres initialState unauthorizedGenres).genres = none
      ∧ (fetchGenres initialState unauthorizedGenres).genres ≠ some []
      ∧ renderFilters (fetchGenres initialState unauthorizedGenres) = .error .typeError
      ∧ (fetchGenres initialState .networkError).genres = some []
      ∧ renderFilters (fetchGenres initialState .networkError) = .ok .fallback :=
  ⟨by decide, by decide, rfl, by decide, rfl⟩

/-! ## Page bounds along a run -/

theorem fetchMoviesSettle_totalPages (s : State) (query : String)
    (out : Fetched CatalogBody) (record : String → Movie → Settled) :
    (fetchMoviesSettle s query out record).state.totalPages =
      (match out with
        | .response true (some data) => totalPagesOr1 data.total_pages
        | _ => s.totalPages) := by
  rcases out with _ | ⟨ok, json⟩
  · rfl
  · cases ok
    · rfl
    · rcases json with _ | data
      · rfl
      · simp only [fetchMoviesSettle, fetchMoviesTry]
        repeat' split
        all_goals first | rfl | simp_all

theorem rerender_page (a b : State) : (rerender a b).page = b.page := by
  unfold rerender fetchMoviesBegin
  split <;> rfl

theorem rerender_totalPages (a b : State) : (rerender a b).totalPages = b.totalPages := by
  unfold rerender fetchMoviesBegin
  split <;> rfl

theorem paginationShown_totalPages {s : State} (h : paginationShown s = true) :
    1 < s.totalPages := by
  unfold paginationShown at h
  simp only [Bool.and_eq_true, decide_eq_true_eq] at h
  exact h.2

theorem step_page_ge_one (s : State) (e : Event) (h : 1 ≤ s.page) : 1 ≤ (step s e).page := by
  cases e with
  | mount => exact h
  | input text => exact h
  | debounce => simp only [step, rerender_page]; exact h
  | selectGenre value =>
    simp only [step]
    split
    · simp only [rerender_page]; exact le_refl _
    · exact h
  | prev =>
    simp only [step]
    split
    · simp only [rerender_page]; exact le_max_right _ _
    · exact h
  | next =>
    simp only [step]
    split
    · rename_i hg
      have ht : 1 < s.totalPages := by
        simp only [Bool.and_eq_true] at hg
        exact paginationShown_totalPages hg.1
      simp only [rerender_page]
      show 1 ≤ min (s.page + 1) s.totalPages
      exact le_min (by omega) (by omega)
    · exact h
  | settle query out rec => simp only [step, fetchMoviesSettle_page]; exact h
  | genresLoaded out =>
    simp only [step, fetchGenres]
    split <;> exact h

theorem step_page_le_totalPages (s : State) (e : Event) (h1 : 1 ≤ s.page)
    (h2 : s.page ≤ s.totalPages) (hc : pagesCovered s [e] = true) :
    (step s e).page ≤ (step s e).totalPages := by
  cases e with
  | mount => exact h2
  | input text => exact h2
  | debounce => simp only [step, rerender_page, rerender_totalPages]; exact h2
  | selectGenre value =>
    simp only [step]
    split
    · simp only [rerender_page, rerender_totalPages]
      show (1 : Int) ≤ s.totalPages
      omega
    · exact h2
  | prev =>
    simp only [step]
    split
    · simp only [rerender_page, rerender_totalPages]
      show max (s.page - 1) 1 ≤ s.totalPages
      exact max_le (by omega) (by omega)
    · exact h2
  | next =>
    simp only [step]
    split
    · simp only [rerender_page, rerender_totalPages]
      exact min_le_right _ _
    · exact h2
  | settle query out rec =>
    simp only [step, fetchMoviesSettle_page, fetchMoviesSettle_totalPages]
    rcases out with _ | ⟨ok, json⟩
    · exact h2
    · cases ok
      · exact h2
      · rcases json with _ | data
        · exact h2
        · simpa [pagesCovered] using hc
  | genresLoaded out =>
    simp only [step, fetchGenres]
    split <;> exact h2

theorem pagesCovered_cons (s : State) (e : Event) (es : List Event) :
    pagesCovered s (e :: es) = (pagesCovered s [e] && pagesCovered (step s e) es) := by
  simp [pagesCovered]

/-- The page never drops below 1, whatever the responses. -/
theorem run_page_ge_one (evs : List Event) : ∀ s : State, 1 ≤ s.page → 1 ≤ (run s evs).page := by
  induction evs with
  | nil => intro s h; exact h
  | cons e es ih => intro s h; exact ih (step s e) (step_page_ge_one s e h)

theorem run_page_le_totalPages (evs : List Event) : ∀ s : State, 1 ≤ s.page →
    s.page ≤ s.totalPages → pagesCovered s evs = true →
    (run s evs).page ≤ (run s evs).totalPages := by
  induction evs with
  | nil => intro s _ h2 _; exact h2
  | cons e es ih =>
    intro s h1 h2 hc
    rw [pagesCovered_cons, Bool.and_eq_true] at hc
    exact ih (step s e) (step_page_ge_one s e h1)
      (step_page_le_totalPages s e h1 h2 hc.1) hc.2

/-! ## Claims on pagination and the request URL -/

/-- Claim C5 as stated fails: the catalog reports two pages, the user moves to
page 2, and the response for page 2 reports one page; the cycle completes
without error and the state shows page 2 of 1. -/
theorem shrinking_catalog_breaks_bound :
    (run initialState shrinkingCatalog).isLoading = false
      ∧ (run initialState shrinkingCatalog).errorMessage = ""
      ∧ (run initialState shrinkingCatalog).page = 2
      ∧ (run initialState shrinkingCatalog).totalPages = 1
      ∧ ¬ (1 ≤ (run initialState shrinkingCatalog).page
            ∧ (run initialState shrinkingCatalog).page
                ≤ (run initialState shrinkingCatalog).totalPages) := by
  decide

/-- Claim C5, amended: in every state reached from the initial state by any
sequence of events, `1 ≤ page ≤ totalPages` holds provided each successful
response reported at least as many pages (1 when the field is absent or 0) as
the page shown when it was applied. -/
theorem page_within_bounds (evs : List Event)
    (hcov : pagesCovered initialState evs = true) :
    1 ≤ (run initialState evs).page
      ∧ (run initialState evs).page ≤ (run initialState evs).totalPages :=
  ⟨run_page_ge_one evs initialState (by decide),
   run_page_le_totalPages evs initialState (by decide) (by decide) hcov⟩

theorem page_within_bounds_witness :
    pagesCovered initialState browseAndSearch = true
      ∧ 1 ≤ (run initialState browseAndSearch).page
      ∧ (run initialState browseAndSearch).page
          ≤ (run initialState browseAndSearch).totalPages :=
  ⟨by decide, page_within_bounds browseAndSearch (by decide)⟩

/-- Claim C6: with `1 ≤ page ≤ totalPages`, Prev sets `page` to
`max (page - 1) 1` and Next sets it to `min (page + 1) totalPages`; at
`page = 1` Prev, and at `page = totalPages` Next, is disabled and leaves the
state as it is; neither handler touches a field other than `page`. -/
theorem pagination_controls (s : State) (h1 : 1 ≤ s.page) (h2 : s.page ≤ s.totalPages) :
    (onPrevClick s).page = max (s.page - 1) 1
      ∧ (onNextClick s).page = min (s.page + 1) s.totalPages
      ∧ (1 ≤ (onPrevClick s).page ∧ (onPrevClick s).page ≤ s.totalPages)
      ∧ (1 ≤ (onNextClick s).page ∧ (onNextClick s).page ≤ s.totalPages)
      ∧ (s.page = 1 → onPrevClick s = s ∧ prevDisabled s = true ∧ step s .prev = s)
      ∧ (s.page = s.totalPages →
          onNextClick s = s ∧ nextDisabled s = true ∧ step s .next = s)
      ∧ withPage (onPrevClick s) s.page = s
      ∧ withPage (onNextClick s) s.page = s := by
  refine ⟨rfl, rfl, ⟨le_max_right _ _, max_le (by omega) (by omega)⟩,
    ⟨le_min (by omega) (by omega), min_le_right _ _⟩, ?_, ?_, rfl, rfl⟩
  · intro hp
    have hm : max (s.page - 1) 1 = s.page := by rw [hp]; decide
    have hs : onPrevClick s = s := by
      show { s with page := max (s.page - 1) 1 } = s
      rw [hm]
    refine ⟨hs, by simp [prevDisabled, hp], ?_⟩
    simp [step, prevDisabled, hp]
  · intro hp
    have hm : min (s.page + 1) s.totalPages = s.page := by
      rw [← hp]; exact min_eq_right (by omega)
    have hs : onNextClick s = s := by
      show { s with page := min (s.page + 1) s.totalPages } = s
      rw [hm]
    refine ⟨hs, by simp [nextDisabled, hp], ?_⟩
    simp [step, nextDisabled, hp]

theorem pagination_controls_witness :
    (onPrevClick page2of3).page = max (page2of3.page - 1) 1
      ∧ (onNextClick page2of3).page = min (page2of3.page + 1) page2of3.totalPages
      ∧ (1 ≤ (onPrevClick page2of3).page ∧ (onPrevClick page2of3).page ≤ page2of3.totalPages)
      ∧ (1 ≤ (onNextClick page2of3).page ∧ (onNextClick page2of3).page ≤ page2of3.totalPages)
      ∧ (page2of3.page = 1 →
          onPrevClick page2of3 = page2of3 ∧ prevDisabled page2of3 = true
            ∧ step page2of3 .prev = page2of3)
      ∧ (page2of3.page = page2of3.totalPages →
          onNextClick page2of3 = page2of3 ∧ nextDisabled page2of3 = true
            ∧ step page2of3 .next = page2of3)
      ∧ withPage (onPrevClick page2of3) page2of3.page = page2of3
      ∧ withPage (onNextClick page2of3) page2of3.page = page2of3 :=
  pagination_controls page2of3 (by decide) (by decide)

/-- Claim C8: for a non-empty term the request URL is the discovery URL with
`with_keywords=` followed by the encoded term, `&page=` and the page, then the
genre parameter; for an empty term it is the same without `with_keywords`; the
genre parameter is `&with_genres=` and the id for a non-empty id and empty
otherwise; for "batman", page 1 and no genre it is the URL written out below. -/
theorem endpoint_shape (selectedGenre term : String) (pageNum : Int) :
    endpoint selectedGenre term pageNum =
        (if term ≠ "" then
          "https://api.themoviedb.org/3/discover/movie?sort_by=popularity.desc&with_keywords="
            ++ encodeURIComponent term ++ "&page=" ++ numberToString pageNum
            ++ (if selectedGenre ≠ "" then "&with_genres=" ++ selectedGenre else "")
         else
          "https://api.themoviedb.org/3/discover/movie?sort_by=popularity.desc&page="
            ++ numberToString pageNum
            ++ (if selectedGenre ≠ "" then "&with_genres=" ++ selectedGenre else ""))
      ∧ endpoint "" "batman" 1 =
          "https://api.themoviedb.org/3/discover/movie?sort_by=popularity.desc&with_keywords=batman&page=1"
      ∧ numberToString 1 = "1" ∧ encodeURIComponent "batman" = "batman" := by
  have hk : API_BASE_URL ++ "/discover/movie?sort_by=popularity.desc&with_keywords="
      = "https://api.themoviedb.org/3/discover/movie?sort_by=popularity.desc&with_keywords=" := by
    decide
  have hp : API_BASE_URL ++ "/discover/movie?sort_by=popularity.desc&page="
      = "https://api.themoviedb.org/3/discover/movie?sort_by=popularity.desc&page=" := by
    decide
  refine ⟨?_, by decide, by decide, by decide⟩
  unfold endpoint genreParam
  rw [hk, hp]

end CineShard
